import Mathlib

/-!
Shallow embedding of the LeDossier repository.

The repository has three source files:
- `src/flask/main.py`: a Flask web server implementing an OIDC
  authorization-code login flow (routes `/`, `/login`, `/authorize`,
  `/logout`) that stores the provider's userinfo claims in the
  per-browser session and delivers the authenticated email back to the
  client through a deep link and a postMessage/localStorage bridge.
- `src/agents/gemini_agent.py`: a one-function adapter around the
  Gemini `generate_content` call.
- `src/bedrock/bedrock_agent.py`: a one-function adapter around the
  Bedrock `converse` call.

The embedding below models Flask's per-request session as a Python
dict (an association list with unique keys maintained by the store
operation), the userinfo claims as a string-keyed claims dict, the
four route handlers as pure functions from session state to a new
session state plus an HTTP response, and the two model adapters as
functions parameterised by the provider call (an oracle), since the
provider SDKs are external to the repository.
-/

namespace LeDossier

/-- Userinfo claims dict returned by the identity provider
(`oauth.oidc.userinfo()` in `src/flask/main.py`): string keys to
string values; only the `email` claim is inspected by the code. -/
def Userinfo := List (String × String)

/-- Python `d.get(k)` on a claims dict: the value at the first (unique)
matching key, or `none`. -/
def uget (u : Userinfo) (k : String) : Option String :=
  (u.find? (fun p => p.1 == k)).map (fun p => p.2)

/-- Python `d.get(k, default)` on a claims dict, as used at
`userinfo.get('email', 'user')` in `src/flask/main.py`. -/
def ugetD (u : Userinfo) (k d : String) : String :=
  (uget u k).getD d

/-- Flask server-side session: a dict from string keys to stored
claims dicts.  The application only ever uses the single key
`"user"`. -/
def Session := List (String × Userinfo)

/-- Python `session.get(k)`: value at the first matching key, or
`none`. -/
def sget (s : Session) (k : String) : Option Userinfo :=
  (s.find? (fun p => p.1 == k)).map (fun p => p.2)

/-- Python `session[k] = v`: replace the value at an existing key in
place, else append a new entry (dict store semantics). -/
def sset : Session → String → Userinfo → Session
  | [], k, v => [(k, v)]
  | (k', v') :: rest, k, v =>
      if k' == k then (k, v) :: rest else (k', v') :: sset rest k v

/-- Python `session.pop(k, None)`: remove the entry at the key when
present (a dict holds at most one), else leave the session unchanged. -/
def spop : Session → String → Session
  | [], _ => []
  | (k', v') :: rest, k =>
      if k' == k then rest else (k', v') :: spop rest k

/-- Number of entries stored under the `"user"` key.  A Python dict
always has at most one; the association-list model makes this an
invariant to prove. -/
def countUser (s : Session) : Nat :=
  (s.filter (fun p => p.1 == "user")).length

/-- The session holds at most one record under the `"user"` key —
the data-model invariant of spec §3. -/
def atMostOneUser (s : Session) : Prop :=
  countUser s ≤ 1

instance : DecidablePred atMostOneUser := fun s =>
  inferInstanceAs (Decidable (countUser s ≤ 1))

/-- An HTTP response produced by a route handler: status code, body
text, and the `Location` header for redirects. -/
structure Response where
  status : Nat
  body : String
  location : Option String
deriving Repr, DecidableEq

/-- The error raised by Python `user["email"]` when the stored claims
dict has no `email` key. -/
def keyErrorEmail : String := "KeyError: \x27email\x27"

/-- Route handler `index` (`GET /` in `src/flask/main.py`): reads
`user = session.get('user')` and tests Python truthiness `if user:` —
false both when the key is absent (`None`) and when the stored claims
dict is empty, so those two branches below are the source's single
`else` returning the anonymous welcome prompt.  A truthy record is
rendered with `user["email"]`, a partial lookup that raises `KeyError`
when the claim is absent.  The handler never writes the session, so
the input session is returned unchanged alongside the response (or the
propagated error). -/
def index (s : Session) : Session × Except String Response :=
  match sget s "user" with
  | some user =>
      if List.isEmpty user then
        (s, Except.ok { status := 200,
                        body := "Welcome! Please <a href=\"/login\">Login</a>.",
                        location := none })
      else
        match uget user "email" with
        | some email =>
            (s, Except.ok { status := 200,
                            body := "Hello, " ++ email ++ ". <a href=\"/logout\">Logout</a>",
                            location := none })
        | none => (s, Except.error keyErrorEmail)
  | none =>
      (s, Except.ok { status := 200,
                      body := "Welcome! Please <a href=\"/login\">Login</a>.",
                      location := none })

/-- Route handler `login` (`GET /login`): the whole body is a call to
the OAuth library (`oauth.oidc.authorize_redirect(redirect_uri)`),
whose redirect response is external to the repository and is passed in
as a parameter.  The handler's own code never touches the session. -/
def login (authorize_redirect : Response) (s : Session) : Session × Response :=
  (s, authorize_redirect)

/-- Route handler `logout` (`GET /logout`): pops the `user` record and
redirects (302) to `url_for('index')`, which is `/`. -/
def logout (s : Session) : Session × Response :=
  (spop s "user", { status := 302, body := "", location := some "/" })

/-- Outbound server-to-server calls the authorize handler performs. -/
inductive OutboundCall
  | tokenExchange
  | userinfoFetch
deriving Repr, DecidableEq

/-- The outbound calls made by a successful `authorize` handler run, in
program order: `oauth.oidc.authorize_access_token()` then
`oauth.oidc.userinfo()` (`src/flask/main.py` lines 49 and 52). -/
def authorizeCalls : List OutboundCall :=
  [OutboundCall.tokenExchange, OutboundCall.userinfoFetch]

/-- Outbound token-exchange or userinfo calls made by `index`: none. -/
def indexCalls : List OutboundCall := []

/-- Outbound token-exchange or userinfo calls made by `login`: none
(its redirect is not a server-to-server call). -/
def loginCalls : List OutboundCall := []

/-- Outbound token-exchange or userinfo calls made by `logout`: none. -/
def logoutCalls : List OutboundCall := []

/-- The deep link built at line 57 of `src/flask/main.py`:
the custom-scheme URI with the email spliced in verbatim. -/
def deep_link (email : String) : String :=
  "ledossier://auth?email=" ++ email ++ "&success=true"

/-- Page text of the authorize delivery page, part 1: from the start of
the returned f-string (the newline after the opening triple quote) up to
the greeting paragraph, ending just before the email span.  Transcribed
from `src/flask/main.py` lines 62-120 with the f-string's doubled braces
collapsed to single ones. -/
def pg1 : String := "
    <!DOCTYPE html>
    <html>
    <head>
        <title>Authentication Successful</title>
        <meta charset=\"utf-8\">
        <style>
            body \x7b
                font-family: Arial, sans-serif;
                display: flex;
                justify-content: center;
                align-items: center;
                height: 100vh;
                margin: 0;
                background-color: #0C001A;
                color: #FFFDEE;
                text-align: center;
            \x7d
            .container \x7b
                padding: 40px;
                max-width: 500px;
            \x7d
            h1 \x7b
                margin-bottom: 20px;
                font-size: 28px;
            \x7d
            p \x7b
                margin: 15px 0;
                line-height: 1.6;
            \x7d
            a \x7b
                color: #FFFDEE;
                text-decoration: underline;
            \x7d
            .email \x7b
                font-weight: bold;
                color: #FFFDEE;
                background-color: rgba(255, 253, 238, 0.1);
                padding: 5px 10px;
                border-radius: 5px;
                display: inline-block;
                margin: 10px 0;
            \x7d
            .button \x7b
                display: inline-block;
                margin-top: 20px;
                padding: 12px 24px;
                background-color: #FFFDEE;
                color: #0C001A;
                text-decoration: none;
                border-radius: 5px;
                font-weight: bold;
            \x7d
        </style>
    </head>
    <body>
        <div class=\"container\">
            <h1>✓ Authentication Successful!</h1>
            <p>Welcome, "

/-- Opening tag of the span that carries the greeting email
(`src/flask/main.py` line 120). -/
def spanOpen : String := "<span class=\"email\">"

/-- Closing tag of the greeting email span. -/
def spanClose : String := "</span>"

/-- Page text, part 2: from the end of the greeting span through the
start of the `authData` object literal, ending just before its `email`
field (`src/flask/main.py` lines 120-128). -/
def pg2 : String := "</p>
            <p id=\"status\">Redirecting back to Le Dossier...</p>
            <p style=\"font-size: 14px; margin-top: 30px; opacity: 0.8;\">
                If you\x27re not redirected automatically, you can close this window and return to the app.
            </p>
        </div>
        <script>
            const authData = \x7b
                "

/-- Opening of the `authData.email` field: the key and the opening
double quote of the JavaScript string literal. -/
def emailField : String := "email: \""

/-- Closing double quote and comma of the `authData.email` field. -/
def emailFieldSep : String := "\","

/-- The `authData.success` field (`src/flask/main.py` line 129). -/
def successField : String := "success: true,"

/-- The `authData.timestamp` field (`src/flask/main.py` line 130). -/
def timestampField : String := "timestamp: new Date().toISOString()"

/-- Indentation between consecutive `authData` fields. -/
def fieldIndent : String := "
                "

/-- Page text, part 5: close of the `authData` object through the
`tryDeepLink` body, ending at the opening quote of the deep-link
assignment to `window.location.href` (`src/flask/main.py` lines
131-136). -/
def pg5 : String := "
            \x7d;

            // For MOBILE: Try to trigger deep link
            function tryDeepLink() \x7b
                try \x7b
                    window.location.href = \""

/-- Page text, part 6: between the two embedded deep-link literals
(`src/flask/main.py` lines 136-140). -/
def pg6 : String := "\";

                    // Also try opening in a new context
                    setTimeout(function() \x7b
                        window.open(\""

/-- Page text, part 7: from the end of the second deep-link literal
through the start of `notifyWebApp`, ending just before the
localStorage store (`src/flask/main.py` lines 140-151). -/
def pg7 : String := "\", \"_self\");
                    \x7d, 500);
                \x7d catch (e) \x7b
                    console.log(\"Deep link not supported on this platform\");
                \x7d
            \x7d

            // For WEB: Use postMessage and localStorage to communicate
            function notifyWebApp() \x7b
                try \x7b
                    // Store auth data in localStorage for web platform
                    "

/-- The localStorage persistence of the auth payload under the fixed
key (`src/flask/main.py` line 151). -/
def lsStore : String :=
  "localStorage.setItem(\x27ledossier_auth\x27, JSON.stringify(authData));"

/-- Page text, part 8: from the end of the localStorage store through
the `postMessage` call, ending just before the message's `type` field
(`src/flask/main.py` lines 152-156). -/
def pg8 : String := "

                    // If opened in a popup, notify the parent window
                    if (window.opener) \x7b
                        window.opener.postMessage(\x7b
                            "

/-- The posted message's `type` field (`src/flask/main.py` line 156). -/
def msgType : String := "type: \x27LEDOSSIER_AUTH_SUCCESS\x27,"

/-- Page text, part 9: from the end of the message `type` field to the
end of the page (`src/flask/main.py` lines 157-183). -/
def pg9 : String := "
                            data: authData
                        \x7d, \x27*\x27);

                        // Update status and close window after delay
                        document.getElementById(\x27status\x27).textContent =
                            \x27Authentication complete! This window will close shortly...\x27;

                        setTimeout(function() \x7b
                            window.close();
                        \x7d, 2000);
                    \x7d else \x7b
                        // Not a popup, user needs to close manually
                        document.getElementById(\x27status\x27).textContent =
                            \x27You can now close this tab and return to Le Dossier.\x27;
                    \x7d
                \x7d catch (e) \x7b
                    console.log(\"Web communication methods not available\");
                \x7d
            \x7d

            // Try both methods
            tryDeepLink();  // For mobile
            notifyWebApp(); // For web
        </script>
    </body>
    </html>
    "

/-- The complete HTML delivery page returned by the authorize handler,
as a function of the email value spliced into it (`src/flask/main.py`
lines 62-183): the greeting span, the `authData.email` JavaScript
string literal, and the two quoted deep-link literals all receive the
email verbatim. -/
def authorizePage (email : String) : String :=
  pg1 ++ spanOpen ++ email ++ spanClose ++ pg2 ++
  emailField ++ email ++ emailFieldSep ++
  fieldIndent ++ successField ++ fieldIndent ++ timestampField ++
  pg5 ++ deep_link email ++ pg6 ++ deep_link email ++ pg7 ++
  lsStore ++ pg8 ++ msgType ++ pg9

/-- Route handler `authorize` (`GET /authorize`), the successful path:
the token exchange and userinfo fetch have succeeded and yielded the
given claims dict.  The handler stores the claims under the session's
`user` key, computes the email with the `'user'` fallback, and returns
the delivery page. -/
def authorize (s : Session) (userinfo : Userinfo) : Session × Response :=
  let s' := sset s "user" userinfo
  let email := ugetD userinfo "email" "user"
  (s', { status := 200, body := authorizePage email, location := none })

/-- Response object of the Gemini `generate_content` call
(`src/agents/gemini_agent.py`): its `.text` accessor is optional and
yields no string when the response carries no text parts (e.g. a
filtered or empty candidate list). -/
structure GenerateContentResponse where
  text : Option String
deriving Repr, DecidableEq

/-- `get_reply` from `src/agents/gemini_agent.py`, parameterised by the
SDK call `client.models.generate_content` — an oracle from model id and
contents to either a raised error or a response object, since the SDK
is external to the repository.  The body performs no error handling and
returns `response.text` unvalidated. -/
def gemini_get_reply
    (generate_content : String → String → Except String GenerateContentResponse)
    (prompt : String) : Except String (Option String) :=
  match generate_content "gemini-3-flash-preview" prompt with
  | Except.error e => Except.error e
  | Except.ok response => Except.ok response.text

/-- Decoded JSON-like value, the shape of the Bedrock `converse`
response dict in `src/bedrock/bedrock_agent.py`. -/
inductive JVal where
  | str (s : String)
  | arr (items : List JVal)
  | obj (fields : List (String × JVal))
deriving Repr

/-- Python `d[k]` on a decoded response: the value at the key, or a
propagated `KeyError` (or `TypeError` when the value is not a dict). -/
def jget : JVal → String → Except String JVal
  | JVal.obj fields, k =>
      match fields.find? (fun p => p.1 == k) with
      | some p => Except.ok p.2
      | none => Except.error ("KeyError: " ++ k)
  | _, k => Except.error ("TypeError: value at " ++ k ++ " is not subscriptable")

/-- Python `l[i]` on a decoded response: the item at the index, or a
propagated `IndexError` (or `TypeError` when the value is not a list). -/
def jidx : JVal → Nat → Except String JVal
  | JVal.arr items, i =>
      match items.get? i with
      | some v => Except.ok v
      | none => Except.error "IndexError: list index out of range"
  | _, _ => Except.error "TypeError: value is not a list"

/-- The request message list built inline in
`src/bedrock/bedrock_agent.py`: a single user turn whose content list
holds the prompt text. -/
def bedrockMessages (prompt : String) : JVal :=
  JVal.arr [JVal.obj
    [("role", JVal.str "user"),
     ("content", JVal.arr [JVal.obj [("text", JVal.str prompt)]])]]

/-- `get_reply` from `src/bedrock/bedrock_agent.py`, parameterised by
the SDK call `client.converse` — an oracle from model id and messages
to either a raised error or a decoded response.  The body performs no
error handling: it drills into
`response["output"]["message"]["content"][0]["text"]`, where every
lookup is partial and any failure propagates. -/
def bedrock_get_reply
    (converse : String → JVal → Except String JVal)
    (prompt : String) : Except String JVal := do
  let response ← converse "nvidia.nemotron-nano-12b-v2" (bedrockMessages prompt)
  let output ← jget response "output"
  let message ← jget output "message"
  let content ← jget message "content"
  let first ← jidx content 0
  jget first "text"

/-- A well-formed Bedrock `converse` response whose single output
message carries the text `t` — the provider's documented success
shape, used to instantiate the adapter on concrete responses. -/
def bedrockReplyShape (t : String) : JVal :=
  JVal.obj
    [("output", JVal.obj
      [("message", JVal.obj
        [("role", JVal.str "assistant"),
         ("content", JVal.arr [JVal.obj [("text", JVal.str t)]])])])]

/-- `occursIn t s`: the string `t` appears verbatim as a contiguous
substring of `s`. -/
def occursIn (t s : String) : Prop :=
  ∃ a b, s = a ++ (t ++ b)

/-- Dict read after a cons: the head answers when its key matches,
else the tail does. -/
theorem sget_cons (k' : String) (v' : Userinfo) (rest : Session) (k : String) :
    sget ((k', v') :: rest) k = if k' == k then some v' else sget rest k := by
  by_cases h : k' == k <;> simp [sget, List.find?_cons, h]

/-- Dict store followed by a read of the same key yields the stored
value: `session['user'] = u` makes `session.get('user')` return `u`. -/
theorem sget_sset_self (s : Session) (k : String) (v : Userinfo) :
    sget (sset s k v) k = some v := by
  induction s with
  | nil => simp [sget, sset, List.find?]
  | cons hd tl ih =>
      obtain ⟨k', v'⟩ := hd
      by_cases h : k' == k
      · simp [sset, h, sget_cons]
      · simp [sset, h, sget_cons, ih]

/-- Popping an absent key leaves the dict unchanged, matching Python's
`dict.pop(k, None)` on a missing key. -/
theorem spop_of_sget_none (s : Session) (k : String) (h : sget s k = none) :
    spop s k = s := by
  induction s with
  | nil => rfl
  | cons hd tl ih =>
      obtain ⟨k', v'⟩ := hd
      rw [sget_cons] at h
      by_cases hk : k' == k
      · simp [hk] at h
      · simp [hk] at h
        simp [spop, hk, ih h]

/-- Unfolding `countUser` over a cons cell. -/
theorem countUser_cons (k' : String) (v' : Userinfo) (rest : Session) :
    countUser ((k', v') :: rest) =
      (if k' == "user" then 1 else 0) + countUser rest := by
  by_cases h : k' == "user"
  · simp [countUser, List.filter_cons, h, Nat.add_comm]
  · simp [countUser, List.filter_cons, h]

/-- Storing under `"user"` yields exactly one `"user"` entry when the
dict had at most one, and in general replaces the first entry. -/
theorem countUser_sset (s : Session) (u : Userinfo) :
    countUser (sset s "user" u) = max 1 (countUser s) := by
  induction s with
  | nil => simp [sset, countUser, List.filter]
  | cons hd tl ih =>
      obtain ⟨k', v'⟩ := hd
      by_cases h : k' == "user"
      · simp [sset, h, countUser_cons]
      · simp [sset, h, countUser_cons, ih]

/-- Popping `"user"` removes exactly one `"user"` entry when present. -/
theorem countUser_spop (s : Session) :
    countUser (spop s "user") = countUser s - 1 := by
  induction s with
  | nil => rfl
  | cons hd tl ih =>
      obtain ⟨k', v'⟩ := hd
      by_cases h : k' == "user"
      · simp [spop, h, countUser_cons]
      · simp [spop, h, countUser_cons, ih]

/-- A dict with no `"user"` entries reads `none` at `"user"`. -/
theorem sget_none_of_countUser_zero (s : Session) (h : countUser s = 0) :
    sget s "user" = none := by
  induction s with
  | nil => rfl
  | cons hd tl ih =>
      obtain ⟨k', v'⟩ := hd
      rw [countUser_cons] at h
      by_cases hk : k' == "user"
      · simp [hk] at h
      · simp [hk] at h
        simp [sget_cons, hk, ih h]

/-- After popping `"user"` from a dict holding at most one `"user"`
entry, no `"user"` entry remains. -/
theorem sget_spop_user (s : Session) (h : countUser s ≤ 1) :
    sget (spop s "user") "user" = none := by
  induction s with
  | nil => rfl
  | cons hd tl ih =>
      obtain ⟨k', v'⟩ := hd
      rw [countUser_cons] at h
      by_cases hk : k' == "user"
      · simp [hk] at h
        simp [spop, hk]
        exact sget_none_of_countUser_zero tl (by omega)
      · simp [hk] at h
        simp [spop, hk, sget_cons, ih h]

/-- The delivery page contains the greeting span with the email spliced
in verbatim between the fixed opening and closing tags. -/
theorem occursIn_greeting (email : String) :
    occursIn (spanOpen ++ (email ++ spanClose)) (authorizePage email) :=
  ⟨pg1,
   pg2 ++ emailField ++ email ++ emailFieldSep ++ fieldIndent ++ successField ++
     fieldIndent ++ timestampField ++ pg5 ++ deep_link email ++ pg6 ++
     deep_link email ++ pg7 ++ lsStore ++ pg8 ++ msgType ++ pg9,
   by simp [authorizePage, String.append_assoc]⟩

/-- The delivery page contains the deep-link literal (its first
occurrence, assigned to `window.location.href`). -/
theorem occursIn_deepLink (email : String) :
    occursIn (deep_link email) (authorizePage email) :=
  ⟨pg1 ++ spanOpen ++ email ++ spanClose ++ pg2 ++ emailField ++ email ++
     emailFieldSep ++ fieldIndent ++ successField ++ fieldIndent ++
     timestampField ++ pg5,
   pg6 ++ deep_link email ++ pg7 ++ lsStore ++ pg8 ++ msgType ++ pg9,
   by simp [authorizePage, String.append_assoc]⟩

/-- The delivery page contains the `authData.email` field with the
email spliced verbatim into the quoted JavaScript string literal. -/
theorem occursIn_emailLit (email : String) :
    occursIn (emailField ++ (email ++ emailFieldSep)) (authorizePage email) :=
  ⟨pg1 ++ spanOpen ++ email ++ spanClose ++ pg2,
   fieldIndent ++ successField ++ fieldIndent ++ timestampField ++ pg5 ++
     deep_link email ++ pg6 ++ deep_link email ++ pg7 ++ lsStore ++ pg8 ++
     msgType ++ pg9,
   by simp [authorizePage, String.append_assoc]⟩

/-- The delivery page contains the `authData.success` field. -/
theorem occursIn_success (email : String) :
    occursIn successField (authorizePage email) :=
  ⟨pg1 ++ spanOpen ++ email ++ spanClose ++ pg2 ++ emailField ++ email ++
     emailFieldSep ++ fieldIndent,
   fieldIndent ++ timestampField ++ pg5 ++ deep_link email ++ pg6 ++
     deep_link email ++ pg7 ++ lsStore ++ pg8 ++ msgType ++ pg9,
   by simp [authorizePage, String.append_assoc]⟩

/-- The delivery page contains the `authData.timestamp` field. -/
theorem occursIn_timestamp (email : String) :
    occursIn timestampField (authorizePage email) :=
  ⟨pg1 ++ spanOpen ++ email ++ spanClose ++ pg2 ++ emailField ++ email ++
     emailFieldSep ++ fieldIndent ++ successField ++ fieldIndent,
   pg5 ++ deep_link email ++ pg6 ++ deep_link email ++ pg7 ++ lsStore ++
     pg8 ++ msgType ++ pg9,
   by simp [authorizePage, String.append_assoc]⟩

/-- The delivery page contains the localStorage store of the auth
payload under the fixed key. -/
theorem occursIn_lsStore (email : String) :
    occursIn lsStore (authorizePage email) :=
  ⟨pg1 ++ spanOpen ++ email ++ spanClose ++ pg2 ++ emailField ++ email ++
     emailFieldSep ++ fieldIndent ++ successField ++ fieldIndent ++
     timestampField ++ pg5 ++ deep_link email ++ pg6 ++ deep_link email ++ pg7,
   pg8 ++ msgType ++ pg9,
   by simp [authorizePage, String.append_assoc]⟩

/-- The delivery page contains the posted message's `type` field. -/
theorem occursIn_msgType (email : String) :
    occursIn msgType (authorizePage email) :=
  ⟨pg1 ++ spanOpen ++ email ++ spanClose ++ pg2 ++ emailField ++ email ++
     emailFieldSep ++ fieldIndent ++ successField ++ fieldIndent ++
     timestampField ++ pg5 ++ deep_link email ++ pg6 ++ deep_link email ++
     pg7 ++ lsStore ++ pg8,
   pg9,
   by simp [authorizePage, String.append_assoc]⟩

/-- The `index` handler never writes the session: every branch returns
the input session unchanged. -/
theorem index_fst (s : Session) : (index s).1 = s := by
  cases h1 : sget s "user" with
  | none => simp [index, h1]
  | some user =>
      cases h2 : List.isEmpty user with
      | true => simp [index, h1, h2]
      | false =>
          cases h3 : uget user "email" with
          | none => simp [index, h1, h2, h3]
          | some e => simp [index, h1, h2, h3]

/-- Claim C1: when the provider's userinfo claims lack `email`, the
delivery page returned by a successful `GET /authorize` greets the user
with the literal fallback `user` and embeds the deep link built from
`user` in place of the email. -/
theorem claim1_email_fallback (s : Session) (u : Userinfo)
    (h : uget u "email" = none) :
    occursIn "<span class=\"email\">user</span>" ((authorize s u).2.body) ∧
    occursIn "ledossier://auth?email=user&success=true" ((authorize s u).2.body) := by
  have he : ugetD u "email" "user" = "user" := by simp [ugetD, h]
  have hb : (authorize s u).2.body = authorizePage "user" := by
    simp [authorize, he]
  rw [hb]
  constructor
  · exact occursIn_greeting "user"
  · exact occursIn_deepLink "user"

/-- Witness for claim C1 at the empty claims dict. -/
theorem claim1_email_fallback_witness :
    uget ([] : Userinfo) "email" = none ∧
    (occursIn "<span class=\"email\">user</span>"
        ((authorize ([] : Session) ([] : Userinfo)).2.body) ∧
     occursIn "ledossier://auth?email=user&success=true"
        ((authorize ([] : Session) ([] : Userinfo)).2.body)) :=
  ⟨rfl, claim1_email_fallback ([] : Session) ([] : Userinfo) rfl⟩

/-- Claim C2 (counterexample): both adapters can return successfully
with a null or empty result — the Gemini adapter returns the
response's absent text as a successful null, and the Bedrock adapter
returns a successful empty string when the provider's text is empty —
refuting the claim that neither adapter ever returns successfully with
a null/empty result. -/
theorem claim2_counterexample :
    gemini_get_reply (fun _ _ => Except.ok { text := none }) "hi" =
      Except.ok none ∧
    bedrock_get_reply (fun _ _ => Except.ok (bedrockReplyShape "")) "hi" =
      Except.ok (JVal.str "") :=
  ⟨rfl, rfl⟩

/-- Claim C2 (amended): each adapter performs no local error handling —
any provider-call failure propagates unchanged to the caller — and on a
successful call returns the extracted field unvalidated: the Gemini
adapter returns the response's optional text (null when the response
carries none), and the Bedrock adapter returns the text at
`output.message.content[0].text` of a well-formed response (possibly
empty). -/
theorem claim2_adapters
    (generate_content : String → String → Except String GenerateContentResponse)
    (converse : String → JVal → Except String JVal)
    (prompt e t : String) (r : GenerateContentResponse) :
    (generate_content "gemini-3-flash-preview" prompt = Except.error e →
       gemini_get_reply generate_content prompt = Except.error e) ∧
    (generate_content "gemini-3-flash-preview" prompt = Except.ok r →
       gemini_get_reply generate_content prompt = Except.ok r.text) ∧
    (converse "nvidia.nemotron-nano-12b-v2" (bedrockMessages prompt) =
        Except.error e →
       bedrock_get_reply converse prompt = Except.error e) ∧
    (converse "nvidia.nemotron-nano-12b-v2" (bedrockMessages prompt) =
        Except.ok (bedrockReplyShape t) →
       bedrock_get_reply converse prompt = Except.ok (JVal.str t)) := by
  refine ⟨?_, ?_, ?_, ?_⟩ <;> intro h
  · simp only [gemini_get_reply, h]
  · simp only [gemini_get_reply, h]
  · simp only [bedrock_get_reply, h]
    rfl
  · simp only [bedrock_get_reply, h]
    rfl

/-- Witness for claim C2 (amended) at concrete oracles: a failing
Gemini call propagates its error, and a well-formed Bedrock response
yields its exact text. -/
theorem claim2_adapters_witness :
    gemini_get_reply (fun _ _ => Except.error "boom") "hi" =
      Except.error "boom" ∧
    bedrock_get_reply (fun _ _ => Except.ok (bedrockReplyShape "ok")) "hi" =
      Except.ok (JVal.str "ok") :=
  ⟨(claim2_adapters (fun _ _ => Except.error "boom")
      (fun _ _ => Except.error "boom") "hi" "boom" "ok" { text := none }).1 rfl,
   (claim2_adapters (fun _ _ => Except.ok { text := none })
      (fun _ _ => Except.ok (bedrockReplyShape "ok")) "hi" "boom" "ok"
      { text := none }).2.2.2 rfl⟩

/-- Claim C3: a successful `GET /authorize` with claims carrying an
email, followed by `GET /` on the same session, returns the greeting
containing that exact email string. -/
theorem claim3_greeting_contains_email (s : Session) (u : Userinfo)
    (e : String) (h : uget u "email" = some e) :
    (index (authorize s u).1).2 =
      Except.ok { status := 200,
                  body := "Hello, " ++ e ++ ". <a href=\"/logout\">Logout</a>",
                  location := none } ∧
    occursIn e ("Hello, " ++ e ++ ". <a href=\"/logout\">Logout</a>") := by
  constructor
  · have hs : sget (authorize s u).1 "user" = some u := by
      simpa [authorize] using sget_sset_self s "user" u
    have hne : List.isEmpty u = false := by
      cases u with
      | nil => simp [uget] at h
      | cons a l => rfl
    simp [index, hs, hne, h]
  · exact ⟨"Hello, ", ". <a href=\"/logout\">Logout</a>",
      by simp [String.append_assoc]⟩

/-- Witness for claim C3 at a concrete email. -/
theorem claim3_greeting_contains_email_witness :
    uget ([("email", "a@b.com")] : Userinfo) "email" = some "a@b.com" ∧
    ((index (authorize ([] : Session)
          ([("email", "a@b.com")] : Userinfo)).1).2 =
      Except.ok { status := 200,
                  body := "Hello, " ++ "a@b.com" ++ ". <a href=\"/logout\">Logout</a>",
                  location := none } ∧
     occursIn "a@b.com"
       ("Hello, " ++ "a@b.com" ++ ". <a href=\"/logout\">Logout</a>")) :=
  ⟨rfl, claim3_greeting_contains_email ([] : Session)
      ([("email", "a@b.com")] : Userinfo) "a@b.com" rfl⟩

/-- Claim C4: for email value `a@b.com`, the delivery page embeds the
deep-link literal `ledossier://auth?email=a@b.com&success=true`, the
script's auth payload carries email field `a@b.com`, success `true`
and a timestamp, is posted with message type `LEDOSSIER_AUTH_SUCCESS`
and stored under the fixed localStorage key `ledossier_auth`. -/
theorem claim4_delivery_page :
    deep_link "a@b.com" = "ledossier://auth?email=a@b.com&success=true" ∧
    occursIn "ledossier://auth?email=a@b.com&success=true"
      ((authorize ([] : Session) ([("email", "a@b.com")] : Userinfo)).2.body) ∧
    occursIn "email: \"a@b.com\","
      ((authorize ([] : Session) ([("email", "a@b.com")] : Userinfo)).2.body) ∧
    occursIn "success: true,"
      ((authorize ([] : Session) ([("email", "a@b.com")] : Userinfo)).2.body) ∧
    occursIn "timestamp: new Date().toISOString()"
      ((authorize ([] : Session) ([("email", "a@b.com")] : Userinfo)).2.body) ∧
    occursIn "type: \x27LEDOSSIER_AUTH_SUCCESS\x27,"
      ((authorize ([] : Session) ([("email", "a@b.com")] : Userinfo)).2.body) ∧
    occursIn "localStorage.setItem(\x27ledossier_auth\x27, JSON.stringify(authData));"
      ((authorize ([] : Session) ([("email", "a@b.com")] : Userinfo)).2.body) :=
  ⟨rfl,
   occursIn_deepLink "a@b.com",
   occursIn_emailLit "a@b.com",
   occursIn_success "a@b.com",
   occursIn_timestamp "a@b.com",
   occursIn_msgType "a@b.com",
   occursIn_lsStore "a@b.com"⟩

/-- Claim C5: on any session holding at most one user record (every
state a Python dict can reach), `GET /logout` removes the user record
and responds 302 to `/`; a following `GET /` returns the anonymous
welcome greeting, and a repeated logout leaves the state unchanged. -/
theorem claim5_logout (s : Session) (h : atMostOneUser s) :
    (logout s).2.status = 302 ∧
    (logout s).2.location = some "/" ∧
    sget (logout s).1 "user" = none ∧
    (index (logout s).1).2 =
      Except.ok { status := 200,
                  body := "Welcome! Please <a href=\"/login\">Login</a>.",
                  location := none } ∧
    logout ((logout s).1) = logout s := by
  have hnone : sget (spop s "user") "user" = none := sget_spop_user s h
  refine ⟨rfl, rfl, ?_, ?_, ?_⟩
  · exact hnone
  · simp [index, logout, hnone]
  · simp [logout, spop_of_sget_none _ _ hnone]

/-- Witness for claim C5 at an authenticated one-entry session. -/
theorem claim5_logout_witness :
    atMostOneUser ([("user", [("email", "x")])] : Session) ∧
    ((logout ([("user", [("email", "x")])] : Session)).2.status = 302 ∧
     (logout ([("user", [("email", "x")])] : Session)).2.location = some "/" ∧
     sget (logout ([("user", [("email", "x")])] : Session)).1 "user" = none ∧
     (index (logout ([("user", [("email", "x")])] : Session)).1).2 =
       Except.ok { status := 200,
                   body := "Welcome! Please <a href=\"/login\">Login</a>.",
                   location := none } ∧
     logout ((logout ([("user", [("email", "x")])] : Session)).1) =
       logout ([("user", [("email", "x")])] : Session)) :=
  ⟨by decide, claim5_logout ([("user", [("email", "x")])] : Session) (by decide)⟩

/-- Claim C6: the at-most-one-user-record invariant is preserved by
every route handler, and a successful authorize replaces the stored
record with the new claims. -/
theorem claim6_single_user_invariant (s : Session) (u : Userinfo)
    (r : Response) (h : atMostOneUser s) :
    atMostOneUser (authorize s u).1 ∧
    sget (authorize s u).1 "user" = some u ∧
    atMostOneUser (index s).1 ∧
    atMostOneUser (login r s).1 ∧
    atMostOneUser (logout s).1 := by
  refine ⟨?_, ?_, ?_, ?_, ?_⟩
  · show countUser (sset s "user" u) ≤ 1
    rw [countUser_sset]
    exact Nat.max_le.mpr ⟨Nat.le_refl 1, h⟩
  · simpa [authorize] using sget_sset_self s "user" u
  · rw [index_fst]
    exact h
  · exact h
  · show countUser (spop s "user") ≤ 1
    rw [countUser_spop]
    exact Nat.le_trans (Nat.sub_le _ _) h

/-- Witness for claim C6 at an already-authenticated session. -/
theorem claim6_single_user_invariant_witness :
    atMostOneUser ([("user", [("email", "x")])] : Session) ∧
    (atMostOneUser (authorize ([("user", [("email", "x")])] : Session)
        ([("email", "y")] : Userinfo)).1 ∧
     sget (authorize ([("user", [("email", "x")])] : Session)
        ([("email", "y")] : Userinfo)).1 "user" = some ([("email", "y")] : Userinfo) ∧
     atMostOneUser (index ([("user", [("email", "x")])] : Session)).1 ∧
     atMostOneUser (login { status := 302, body := "", location := none }
        ([("user", [("email", "x")])] : Session)).1 ∧
     atMostOneUser (logout ([("user", [("email", "x")])] : Session)).1) :=
  ⟨by decide, claim6_single_user_invariant ([("user", [("email", "x")])] : Session)
      ([("email", "y")] : Userinfo) { status := 302, body := "", location := none }
      (by decide)⟩

/-- Claim C7: only the authorize and logout handlers mutate the session
(`index` and `login` return it unchanged), and the authorize handler
performs exactly one outbound token-exchange call and exactly one
outbound userinfo call per login. -/
theorem claim7_frame (s : Session) (r : Response) :
    (index s).1 = s ∧
    (login r s).1 = s ∧
    authorizeCalls.count OutboundCall.tokenExchange = 1 ∧
    authorizeCalls.count OutboundCall.userinfoFetch = 1 ∧
    indexCalls = [] ∧
    loginCalls = [] ∧
    logoutCalls = [] :=
  ⟨index_fst s, rfl, by decide, by decide, rfl, rfl, rfl⟩

/-- Claim C8: with no user record stored, `GET /` returns the welcome
prompt, leaves the session unchanged, and a second `GET /` behaves
identically. -/
theorem claim8_index_idempotent (s : Session) (h : sget s "user" = none) :
    index s = (s, Except.ok { status := 200,
                              body := "Welcome! Please <a href=\"/login\">Login</a>.",
                              location := none }) ∧
    index ((index s).1) = index s := by
  constructor
  · simp [index, h]
  · rw [index_fst]

/-- Witness for claim C8 at the fresh empty session. -/
theorem claim8_index_idempotent_witness :
    sget ([] : Session) "user" = none ∧
    (index ([] : Session) =
      (([] : Session), Except.ok { status := 200,
                                   body := "Welcome! Please <a href=\"/login\">Login</a>.",
                                   location := none }) ∧
     index ((index ([] : Session)).1) = index ([] : Session)) :=
  ⟨rfl, claim8_index_idempotent ([] : Session) rfl⟩

/-- Claim C9 (counterexample): at a session storing the empty claims
dict under `user` — a record lacking the `email` key — Python's
truthiness test `if user:` is false, so `GET /` renders the anonymous
welcome prompt instead of raising a lookup error, refuting the claim
as stated over every email-less record. -/
theorem claim9_counterexample :
    uget ([] : Userinfo) "email" = none ∧
    (index ([("user", ([] : Userinfo))] : Session)).2 =
      Except.ok { status := 200,
                  body := "Welcome! Please <a href=\"/login\">Login</a>.",
                  location := none } :=
  ⟨rfl, rfl⟩

/-- Claim C9 (amended): when the session stores a non-empty (truthy)
user record lacking the `email` key, `GET /` propagates an uncaught
KeyError from the partial lookup `user["email"]` instead of rendering
a greeting; the empty record is falsy and renders the welcome prompt;
the `user` fallback applies only inside the authorize handler's own
page. -/
theorem claim9_index_raises (s : Session) (u : Userinfo)
    (h : sget s "user" = some u) (hne : List.isEmpty u = false)
    (he : uget u "email" = none) :
    (index s).2 = Except.error keyErrorEmail ∧
    (authorize s u).2.body = authorizePage "user" := by
  constructor
  · simp [index, h, hne, he]
  · simp [authorize, ugetD, he]

/-- Witness for claim C9 (amended) at a session storing a non-empty
email-less record holding only a subject claim. -/
theorem claim9_index_raises_witness :
    sget ([("user", [("sub", "x")])] : Session) "user" =
      some ([("sub", "x")] : Userinfo) ∧
    List.isEmpty ([("sub", "x")] : Userinfo) = false ∧
    uget ([("sub", "x")] : Userinfo) "email" = none ∧
    ((index ([("user", [("sub", "x")])] : Session)).2 =
        Except.error keyErrorEmail ∧
     (authorize ([("user", [("sub", "x")])] : Session)
        ([("sub", "x")] : Userinfo)).2.body = authorizePage "user") :=
  ⟨rfl, rfl, rfl,
   claim9_index_raises ([("user", [("sub", "x")])] : Session)
     ([("sub", "x")] : Userinfo) rfl rfl rfl⟩

/-- Claim C10: the authorize handler splices the email into the page
verbatim — character for character, with no HTML escaping, URL
encoding, or JavaScript-string escaping — into the HTML greeting span,
the deep-link query parameter, and the quoted JavaScript string
literal of the auth payload, for every email string. -/
theorem claim10_verbatim (s : Session) (u : Userinfo) (email : String) :
    (authorize s u).2.body = authorizePage (ugetD u "email" "user") ∧
    occursIn ("<span class=\"email\">" ++ (email ++ "</span>"))
      (authorizePage email) ∧
    occursIn ("ledossier://auth?email=" ++ (email ++ "&success=true"))
      (authorizePage email) ∧
    occursIn ("email: \"" ++ (email ++ "\",")) (authorizePage email) := by
  refine ⟨rfl, occursIn_greeting email, ?_, occursIn_emailLit email⟩
  have hdl : ("ledossier://auth?email=" ++ (email ++ "&success=true") : String) =
      deep_link email := by
    simp [deep_link, String.append_assoc]
  rw [hdl]
  exact occursIn_deepLink email

end LeDossier
